import Mathlib

/-!
Shallow embedding of the DAG Run & Task Instance Scheduling Engine observed
and driven by `airflow_webserver/views.py`.  View-layer handlers (`trigger`,
`run`, `_clear_dag_tis`, the pool and variable views) are translated from the
source file; engine operations that the handlers call but that live outside
this repository (`DAG.clear`, `models.clear_task_instances`,
`DagRun.update_state`, the dependency evaluator) are modelled from the spec,
as marked on each definition.  Timestamps are abstracted as natural numbers
and `datetime.isoformat` as their canonical decimal rendering.
-/

/-- Task-instance states (`airflow.utils.state.State`). -/
inductive TiState
  | none_
  | scheduled
  | queued
  | running
  | success
  | failed
  | skipped
  | upForRetry
  | upstreamFailed
deriving DecidableEq, Repr

/-- DAG-run states. -/
inductive RunState
  | running
  | success
  | failed
deriving DecidableEq, Repr

/-- Terminal task-instance states (spec §3 state enumeration). -/
def tiIsTerminal : TiState → Bool
  | .success => true
  | .failed => true
  | .skipped => true
  | .upstreamFailed => true
  | _ => false

/-- Terminal DAG-run states. -/
def runIsTerminal : RunState → Bool
  | .success => true
  | .failed => true
  | .running => false

/-- One task's execution record within one DAG run
(`TaskInstance` table: key (dag_id, task_id, execution_date)). -/
structure TaskInstance where
  dagId : String
  taskId : String
  executionDate : Nat
  state : TiState
  tryNumber : Nat
  pool : String
deriving DecidableEq, Repr

/-- One materialized execution of a DAG
(`DagRun` table: dag_id, run_id, execution_date, state, external_trigger, conf). -/
structure DagRun where
  dagId : String
  runId : String
  executionDate : Nat
  state : RunState
  externalTrigger : Bool
  conf : List (String × String)
deriving DecidableEq, Repr

/-- A DAG definition as the webserver sees it through the dagbag:
identity, max_active_runs, its task ids and upstream edges
(an entry (u, v) means u is directly upstream of v). -/
structure Dag where
  dagId : String
  maxActiveRuns : Nat
  taskIds : List String
  upstreams : List (String × String)
deriving DecidableEq, Repr

/-- A named resource pool (`Pool` table: name and total slot count). -/
structure Pool where
  pool : String
  slots : Nat
deriving DecidableEq, Repr

/-- The persistent state the view layer reads and mutates. -/
structure Store where
  dags : List Dag
  runs : List DagRun
  tis : List TaskInstance
  pools : List Pool
deriving DecidableEq, Repr

/-- Timestamp rendering standing in for `datetime.isoformat` (injective on the
abstracted timestamps). -/
def isoformat (d : Nat) : String :=
  toString d

/-- `dagbag.get_dag(dag_id)`. -/
def get_dag (s : Store) (dagId : String) : Option Dag :=
  s.dags.find? (fun d => d.dagId == dagId)

/-- `DagRun.find(dag_id=..., run_id=...)`: all runs with that id pair. -/
def dagRunFind (runs : List DagRun) (dagId runId : String) : List DagRun :=
  runs.filter (fun r => r.dagId == dagId && r.runId == runId)

/-- Number of RUNNING runs of a dag, as counted by the `blocked` endpoint's
query (`filter(DR.state == State.RUNNING).group_by(DR.dag_id)`). -/
def runningRunCount (s : Store) (dagId : String) : Nat :=
  (s.runs.filter (fun r => r.dagId == dagId && r.state == RunState.running)).length

/-- Payload of the `blocked` endpoint: for each dag with RUNNING runs, the
dag_id, the active run count and the dag's max_active_runs (0 when the dag is
not in the dagbag). -/
def blocked (s : Store) : List (String × Nat × Nat) :=
  (((s.runs.filter (fun r => r.state == RunState.running)).map (fun r => r.dagId)).eraseDups).map
    (fun d => (d, runningRunCount s d,
      match get_dag s d with
      | some dag => dag.maxActiveRuns
      | none => 0))

/-- Outcome the `trigger` endpoint reports to the caller (its flash message). -/
inductive TriggerResult
  | dagNotFound (dagId : String)
  | duplicateRun (runId : String)
  | triggered (dagId : String)
deriving DecidableEq, Repr

/-- The `/trigger` handler: looks the dag up, derives
`run_id = "manual__" + execution_date.isoformat()` from the current time,
answers `duplicateRun` when a run with that run_id exists, and otherwise
creates a DagRun with `state=RUNNING`, `external_trigger=True` and empty conf. -/
def trigger (s : Store) (dagId : String) (now : Nat) : TriggerResult × Store :=
  match get_dag s dagId with
  | none => (.dagNotFound dagId, s)
  | some _ =>
    let executionDate := now
    let runId := "manual__" ++ isoformat executionDate
    if dagRunFind s.runs dagId runId = [] then
      let dr : DagRun :=
        { dagId := dagId, runId := runId, executionDate := executionDate,
          state := RunState.running, externalTrigger := true, conf := [] }
      (.triggered dagId, { s with runs := dr :: s.runs })
    else
      (.duplicateRun runId, s)

/-- Date-window test used by clear selection: `start_date <= execution_date`
and `execution_date <= end_date`, each side open when the bound is absent
(the `future`/`past` flags turn a bound into None in the handler). -/
def inWindow (sd ed : Option Nat) (d : Nat) : Bool :=
  (match sd with
   | some a => decide (a ≤ d)
   | none => true) &&
  (match ed with
   | some b => decide (d ≤ b)
   | none => true)

/-- A task instance is selected by a clear over (dag, window) when it belongs
to the dag and its execution_date lies in the window. -/
def tiSelected (dagId : String) (sd ed : Option Nat) (t : TaskInstance) : Bool :=
  t.dagId == dagId && inWindow sd ed t.executionDate

/-- Reset of one task instance by clear: state to NONE, try_number to 0. -/
def resetTi (t : TaskInstance) : TaskInstance :=
  { t with state := TiState.none_, tryNumber := 0 }

/-- Modelled from the spec: the selection step of `DAG.clear` (the engine-side
`airflow.models.DAG.clear` called by `_clear_dag_tis` is not part of this
file) — "selects the task-instance set matching the date window". -/
def clearSelect (s : Store) (dagId : String) (sd ed : Option Nat) : List TaskInstance :=
  s.tis.filter (tiSelected dagId sd ed)

/-- Modelled from the spec: the mutation step of `DAG.clear` — "resets each to
NONE, clears try_number, and additionally transitions the owning DAG run(s)
back to RUNNING if they were terminal". -/
def clearApply (s : Store) (dagId : String) (sd ed : Option Nat) : Store :=
  { s with
    tis := s.tis.map (fun t => if tiSelected dagId sd ed t then resetTi t else t),
    runs := s.runs.map (fun r =>
      if runIsTerminal r.state = true ∧ r.dagId = dagId ∧
          s.tis.any (fun t => tiSelected dagId sd ed t && t.executionDate == r.executionDate) = true
      then { r with state := RunState.running }
      else r) }

/-- What `_clear_dag_tis` sends back: a count after a confirmed clear, or a
preview (possibly empty) after a dry run. -/
inductive ClearResponse
  | cleared (count : Nat)
  | emptyPreview
  | confirmList (tis : List TaskInstance)
deriving DecidableEq, Repr

/-- The `_clear_dag_tis` helper: when confirmed, run `dag.clear` and report
the count of affected rows; otherwise run it with `dry_run=True` and either
report that nothing matched or show the selected set for confirmation. -/
def clear_dag_tis (s : Store) (dagId : String) (sd ed : Option Nat) (confirmed : Bool) :
    ClearResponse × Store :=
  if confirmed then
    (ClearResponse.cleared (clearSelect s dagId sd ed).length, clearApply s dagId sd ed)
  else if clearSelect s dagId sd ed = [] then
    (ClearResponse.emptyPreview, s)
  else
    (ClearResponse.confirmList (clearSelect s dagId sd ed), s)

/-- Key of a task instance: (dag_id, task_id, execution_date). -/
abbrev TiKey := String × String × Nat

/-- Modelled from the spec: `models.clear_task_instances` as invoked by
`TaskInstanceModelView.action_clear` (the function itself is not part of this
file) — each selected task instance is reset to NONE with try_number 0, and a
DAG run owning a selected instance is moved from a terminal state back to
RUNNING. -/
def clear_task_instances (s : Store) (sel : List TiKey) : Store :=
  { s with
    tis := s.tis.map (fun t =>
      if (t.dagId, t.taskId, t.executionDate) ∈ sel then resetTi t else t),
    runs := s.runs.map (fun r =>
      if runIsTerminal r.state = true ∧ ∃ k ∈ sel, k.1 = r.dagId ∧ k.2.2 = r.executionDate
      then { r with state := RunState.running }
      else r) }

/-- Override flags carried by the dependency context
(`DepContext(deps=QUEUE_DEPS, ignore_all_deps, ignore_task_deps, ignore_ti_state)`). -/
structure DepContext where
  ignoreAllDeps : Bool := false
  ignoreTaskDeps : Bool := false
  ignoreTiState : Bool := false
deriving DecidableEq, Repr

/-- Database lookup of a task instance by key. -/
def lookupTi (s : Store) (dagId taskId : String) (executionDate : Nat) : Option TaskInstance :=
  s.tis.find? (fun t =>
    t.dagId == dagId && t.taskId == taskId && t.executionDate == executionDate)

/-- `models.TaskInstance(task=task, execution_date=...)` followed by
`refresh_from_db()`: the stored record when one exists, otherwise a fresh
record in state NONE. -/
def get_ti (s : Store) (dagId taskId : String) (executionDate : Nat) : TaskInstance :=
  match lookupTi s dagId taskId executionDate with
  | some t => t
  | none =>
    { dagId := dagId, taskId := taskId, executionDate := executionDate,
      state := TiState.none_, tryNumber := 0, pool := "" }

/-- Direct upstream task ids of a task in a dag. -/
def upstream_task_ids (dag : Dag) (taskId : String) : List String :=
  (dag.upstreams.filter (fun e => e.2 == taskId)).map (fun e => e.1)

/-- State of the upstream task instance for the same execution_date (NONE when
no record exists yet). -/
def upstreamState (s : Store) (dagId upstreamId : String) (executionDate : Nat) : TiState :=
  match lookupTi s dagId upstreamId executionDate with
  | some t => t.state
  | none => TiState.none_

/-- Modelled from the spec: the trigger-rule dependency under the default
all-upstream-succeeded rule — satisfied when every direct upstream task
instance for the same execution_date is in SUCCESS. -/

def triggerRuleOk (s : Store) (dag : Dag) (t : TaskInstance) : Bool :=
  (upstream_task_ids dag t.taskId).all
    (fun u => upstreamState s dag.dagId u t.executionDate == TiState.success)

/-- Modelled from the spec: the instance-state dependency — the task instance
must currently be in a runnable state (NONE, UP_FOR_RETRY, SCHEDULED, QUEUED). -/
def runnableState : TiState → Bool
  | .none_ => true
  | .upForRetry => true
  | .scheduled => true
  | .queued => true
  | _ => false

/-- Instances occupying a slot of a pool: those in RUNNING or QUEUED assigned
to it, counted fresh from current instance states. -/
def poolOccupancy (s : Store) (p : String) : Nat :=
  (s.tis.filter (fun t =>
    t.pool == p && (t.state == TiState.running || t.state == TiState.queued))).length

/-- Modelled from the spec: the admission controller's `has_capacity` —
capacity = total_slots minus the count of QUEUED or RUNNING instances in the
pool, recomputed each call; a task with no matching pool record is
unconstrained. -/
def has_capacity (s : Store) (p : String) : Bool :=
  match s.pools.find? (fun q => q.pool == p) with
  | some q => decide (poolOccupancy s p < q.slots)
  | none => true

/-- The DAG run owning a task instance (same dag_id and execution_date). -/
def parent_run (s : Store) (t : TaskInstance) : Option DagRun :=
  s.runs.find? (fun r => r.dagId == t.dagId && r.executionDate == t.executionDate)

/-- Modelled from the spec: the DAG-run-state dependency — the parent DAG run
must not already be in a terminal state when the instance is being queued. -/
def dagrunStateOk (s : Store) (t : TaskInstance) : Bool :=
  match parent_run s t with
  | some r => !runIsTerminal r.state
  | none => true

/-- Modelled from the spec: `TaskInstance.get_failed_dep_statuses` under the
queueing dependency set (QUEUE_DEPS) — each dependency class is evaluated
independently in the fixed priority order trigger-rule, instance-state, pool,
dag-run-state, and every failure is accumulated as a (dependency_name, reason)
pair; override flags suppress the corresponding classes. -/
def get_failed_dep_statuses (s : Store) (dag : Dag) (t : TaskInstance) (ctx : DepContext) :
    List (String × String) :=
  if ctx.ignoreAllDeps then []
  else
    (if ctx.ignoreTaskDeps || triggerRuleOk s dag t then []
     else [("Trigger Rule", "not all upstream task instances are in the success state")]) ++
    (if ctx.ignoreTiState || runnableState t.state then []
     else [("Task Instance State", "the task instance is not in a runnable state")]) ++
    (if has_capacity s t.pool then []
     else [("Pool Slots Available", "the pool has no open slots")]) ++
    (if dagrunStateOk s t then []
     else [("Dagrun State", "the parent dag run is in a terminal state")])

/-- The configured default executor as seen by the `run` handler:
a CeleryExecutor, some other executor, or one whose class failed to import. -/
inductive ExecutorKind
  | celery
  | otherExecutor
  | importFailed
deriving DecidableEq, Repr

/-- Outcome the `run` handler reports to the caller. -/
inductive RunResult
  | dagMissing
  | executorNotCelery
  | depsNotMet (failed : List (String × String))
  | queued
deriving DecidableEq, Repr

/-- The `/run` handler: looks up the dag, refuses unless the default executor
is a CeleryExecutor (also when its class cannot be imported), evaluates the
queueing dependencies of the task instance, and only when no failed
dependency is reported hands the instance to the executor; the middle
component lists the keys queued to the executor, the last is the store
(unchanged by the handler itself). -/
def run (s : Store) (execKind : ExecutorKind) (dagId taskId : String) (executionDate : Nat)
    (ctx : DepContext) : RunResult × List TiKey × Store :=
  match get_dag s dagId with
  | none => (RunResult.dagMissing, [], s)
  | some dag =>
    if execKind = ExecutorKind.celery then
      let t := get_ti s dagId taskId executionDate
      let failed := get_failed_dep_statuses s dag t ctx
      if failed = [] then
        (RunResult.queued, [(dagId, taskId, executionDate)], s)
      else
        (RunResult.depsNotMet failed, [], s)
    else
      (RunResult.executorNotCelery, [], s)

/-- Task instances belonging to a DAG run (same dag_id and execution_date). -/
def runTis (s : Store) (r : DagRun) : List TaskInstance :=
  s.tis.filter (fun t => t.dagId == r.dagId && t.executionDate == r.executionDate)

/-- Modelled from the spec: the state `DagRun.update_state` recomputes from
the run's task instances — SUCCESS if all reached SUCCESS or SKIPPED, FAILED
if all are terminal and one reached FAILED or UPSTREAM_FAILED (no further
progress possible), otherwise RUNNING. -/
def computeRunState (tis : List TaskInstance) : RunState :=
  if tis.all (fun t => t.state == TiState.success || t.state == TiState.skipped) then
    RunState.success
  else if tis.all (fun t => tiIsTerminal t.state) &&
      tis.any (fun t => t.state == TiState.failed || t.state == TiState.upstreamFailed) then
    RunState.failed
  else
    RunState.running

/-- The row update `update_state` writes: set the state of the run's own row. -/
def setRunStateRow (dagId runId : String) (ns : RunState) (q : DagRun) : DagRun :=
  if q.dagId == dagId && q.runId == runId then { q with state := ns } else q

/-- Modelled from the spec: `DagRun.update_state` (not part of this file) —
recomputes the run's state by inspecting all of its task instances and writes
it to the run's row, touching no task instance. -/
def update_state (s : Store) (r : DagRun) : RunState × Store :=
  let ns := computeRunState (runTis s r)
  (ns, { s with runs := s.runs.map (setRunStateRow r.dagId r.runId ns) })

/-- Modelled from the view's list columns and filter links: the `used_slots`
figure of `models.Pool` shown by `PoolModelView` — the count of task instances
assigned to the pool currently in RUNNING state (the figure the view
hyperlinks to the instance list filtered by `state=running`), counted fresh
from current instance states. -/
def used_slots (s : Store) (p : String) : Nat :=
  (s.tis.filter (fun t => t.pool == p && t.state == TiState.running)).length

/-- Modelled from the view's list columns and filter links: the
`queued_slots` figure shown by `PoolModelView` — the count of task instances
assigned to the pool currently in QUEUED state (hyperlinked to the instance
list filtered by `state=queued`). -/
def queued_slots (s : Store) (p : String) : Nat :=
  (s.tis.filter (fun t => t.pool == p && t.state == TiState.queued)).length

/-- The task-instance list URL a pool figure links to
(`/taskinstance/list/?_flt_3_pool=...&_flt_3_state=...`). -/
def taskInstanceListUrl (p st : String) : String :=
  "/taskinstance/list/?_flt_3_pool=" ++ p ++ "&_flt_3_state=" ++ st

/-- `PoolModelView.fused_slots`: renders the used_slots figure as a link to
the pool's RUNNING instances (None attributes render as the Invalid marker,
here `Option.none`). -/
def fused_slots (poolAttr : Option String) (usedAttr : Option Nat) : Option (String × Nat) :=
  match poolAttr, usedAttr with
  | some p, some u => some (taskInstanceListUrl p "running", u)
  | _, _ => none

/-- `PoolModelView.fqueued_slots`: renders the queued_slots figure as a link
to the pool's QUEUED instances. -/
def fqueued_slots (poolAttr : Option String) (queuedAttr : Option Nat) : Option (String × Nat) :=
  match poolAttr, queuedAttr with
  | some p, some q => some (taskInstanceListUrl p "queued", q)
  | _, _ => none

/-- One row of the pool list view, columns `pool, slots, used_slots,
queued_slots`. -/
def poolListRow (s : Store) (p : Pool) : String × Nat × Nat × Nat :=
  (p.pool, p.slots, used_slots s p.pool, queued_slots s p.pool)

/-- The masked rendering of a sensitive value: `'*' * 8`. -/
def maskedValue : String :=
  "********"

/-- `VariableModelView.hidden_field_formatter`: keys classified sensitive by
`wwwutils.should_hide_value_for_key` (supplied here as the `hide` parameter,
it lives outside this file) render as eight asterisks; otherwise the stored
value renders, with empty or absent values rendered as an Invalid marker. -/
def hidden_field_formatter (hide : String → Bool) (key : String) (val : Option String) :
    Option String :=
  if hide key then some maskedValue
  else
    match val with
    | some v => if v = "" then none else some v
    | none => none

/-- `VariableModelView.prefill_form`: the edit form's value field is replaced
by eight asterisks when the key is classified sensitive, and kept otherwise. -/
def prefill_form_val (hide : String → Bool) (key val : String) : String :=
  if hide key then maskedValue else val

/-- Concrete scenario for C1: a dag with max_active_runs = 1 that already has
one RUNNING run. -/
def dagC1 : Dag :=
  { dagId := "etl", maxActiveRuns := 1, taskIds := ["a"], upstreams := [] }

/-- Store for the C1 scenario. -/
def storeC1 : Store :=
  { dags := [dagC1],
    runs := [{ dagId := "etl", runId := "manual__0", executionDate := 0,
               state := RunState.running, externalTrigger := true, conf := [] }],
    tis := [], pools := [] }

/-- Concrete scenario for C2: a store already holding the run a repeat trigger
would derive. -/
def storeC2 : Store :=
  { dags := [{ dagId := "etl2", maxActiveRuns := 3, taskIds := [], upstreams := [] }],
    runs := [{ dagId := "etl2", runId := "manual__7", executionDate := 7,
               state := RunState.running, externalTrigger := true, conf := [] }],
    tis := [{ dagId := "etl2", taskId := "a", executionDate := 7,
              state := TiState.running, tryNumber := 1, pool := "" }],
    pools := [] }

/-- Concrete scenario for C8: a dag with no runs yet. -/
def storeC8 : Store :=
  { dags := [{ dagId := "rpt", maxActiveRuns := 2, taskIds := [], upstreams := [] }],
    runs := [], tis := [], pools := [] }

/-- Concrete scenario for C4 and C9: a two-task dag a → b whose root task is
in state NONE inside a RUNNING run, with a pool that has free slots. -/
def dagC4 : Dag :=
  { dagId := "wf", maxActiveRuns := 16, taskIds := ["a", "b"], upstreams := [("a", "b")] }

/-- Store for the C4/C9 scenario. -/
def storeC4 : Store :=
  { dags := [dagC4],
    runs := [{ dagId := "wf", runId := "manual__3", executionDate := 3,
               state := RunState.running, externalTrigger := false, conf := [] }],
    tis := [{ dagId := "wf", taskId := "a", executionDate := 3,
              state := TiState.none_, tryNumber := 0, pool := "default" }],
    pools := [{ pool := "default", slots := 4 }] }

/-- Concrete scenario for C7: a one-task run whose task has succeeded. -/
def storeC7 : Store :=
  { dags := [],
    runs := [{ dagId := "w7", runId := "manual__2", executionDate := 2,
               state := RunState.running, externalTrigger := true, conf := [] }],
    tis := [{ dagId := "w7", taskId := "a", executionDate := 2,
              state := TiState.success, tryNumber := 1, pool := "" }],
    pools := [] }

/-- The run of the C7 scenario. -/
def runC7 : DagRun :=
  { dagId := "w7", runId := "manual__2", executionDate := 2,
    state := RunState.running, externalTrigger := true, conf := [] }

/-- Concrete scenario for C6: a failed task inside a failed run. -/
def storeC6 : Store :=
  { dags := [{ dagId := "nightly", maxActiveRuns := 1, taskIds := ["x"], upstreams := [] }],
    runs := [{ dagId := "nightly", runId := "scheduled__9", executionDate := 9,
               state := RunState.failed, externalTrigger := false, conf := [] }],
    tis := [{ dagId := "nightly", taskId := "x", executionDate := 9,
              state := TiState.failed, tryNumber := 3, pool := "" }],
    pools := [] }

/-- The terminal task instance of the C6 scenario. -/
def tiC6 : TaskInstance :=
  { dagId := "nightly", taskId := "x", executionDate := 9,
    state := TiState.failed, tryNumber := 3, pool := "" }

/-- The terminal run of the C6 scenario. -/
def runC6 : DagRun :=
  { dagId := "nightly", runId := "scheduled__9", executionDate := 9,
    state := RunState.failed, externalTrigger := false, conf := [] }

/-- Concrete scenario for C5: a pool holding one RUNNING and one QUEUED
instance. -/
def storeC5 : Store :=
  { dags := [], runs := [],
    tis := [{ dagId := "d5", taskId := "a", executionDate := 0,
              state := TiState.running, tryNumber := 1, pool := "batch" },
            { dagId := "d5", taskId := "b", executionDate := 0,
              state := TiState.queued, tryNumber := 0, pool := "batch" }],
    pools := [{ pool := "batch", slots := 5 }] }

/-- C1 fails on the code: with max_active_runs = 1 and one RUNNING run, the
trigger endpoint still creates a new DAG run record, so the number of RUNNING
runs exceeds max_active_runs. -/
theorem C1_counterexample :
    dagC1.maxActiveRuns ≤ runningRunCount storeC1 "etl" ∧
    (trigger storeC1 "etl" 1).2.runs.length = storeC1.runs.length + 1 ∧
    dagC1.maxActiveRuns < runningRunCount (trigger storeC1 "etl" 1).2 "etl" := by
  decide

/-- C1 (amended): the manual-trigger endpoint does not defer on
max_active_runs — whenever the dag exists and no run with the derived run_id
exists, it creates a new RUNNING run even when the number of RUNNING runs is
already at or above max_active_runs, which that number then exceeds; the
limit is only reported by the `blocked` endpoint, not enforced at this
creation site. -/
theorem C1_trigger_ignores_max_active_runs (s : Store) (dagId : String) (now : Nat) (dag : Dag)
    (hdag : get_dag s dagId = some dag)
    (hfresh : dagRunFind s.runs dagId ("manual__" ++ isoformat now) = [])
    (hfull : dag.maxActiveRuns ≤ runningRunCount s dagId) :
    (trigger s dagId now).2.runs.length = s.runs.length + 1 ∧
    dag.maxActiveRuns < runningRunCount (trigger s dagId now).2 dagId := by
  have hcount : runningRunCount (trigger s dagId now).2 dagId = runningRunCount s dagId + 1 := by
    simp [trigger, hdag, hfresh, runningRunCount, List.filter_cons]
  refine ⟨by simp [trigger, hdag, hfresh], ?_⟩
  rw [hcount]
  omega

/-- Witness for the amended C1 theorem at the concrete scenario. -/
theorem C1_trigger_ignores_max_active_runs_witness :
    (trigger storeC1 "etl" 1).2.runs.length = storeC1.runs.length + 1 ∧
    dagC1.maxActiveRuns < runningRunCount (trigger storeC1 "etl" 1).2 "etl" :=
  C1_trigger_ignores_max_active_runs storeC1 "etl" 1 dagC1 (by decide) (by decide) (by decide)

/-- C2: triggering when a run with the derived run_id already exists reports
the duplicate to the caller and leaves the whole store — every DAG run and
task-instance record — unchanged. -/
theorem C2_duplicate_trigger_is_noop (s : Store) (dagId : String) (now : Nat) (dag : Dag)
    (hdag : get_dag s dagId = some dag)
    (hdup : dagRunFind s.runs dagId ("manual__" ++ isoformat now) ≠ []) :
    trigger s dagId now = (TriggerResult.duplicateRun ("manual__" ++ isoformat now), s) := by
  simp [trigger, hdag, hdup]

/-- Witness for C2 at the concrete scenario. -/
theorem C2_duplicate_trigger_is_noop_witness :
    trigger storeC2 "etl2" 7 = (TriggerResult.duplicateRun ("manual__" ++ isoformat 7), storeC2) :=
  C2_duplicate_trigger_is_noop storeC2 "etl2" 7
    { dagId := "etl2", maxActiveRuns := 3, taskIds := [], upstreams := [] }
    (by decide) (by decide)

/-- C8: a successful manual trigger creates exactly one run whose run_id is
"manual__" followed by the execution_date rendering, whose execution_date is
the trigger time, whose external-trigger flag is set, and whose state is
RUNNING. -/
theorem C8_trigger_creates_manual_run (s : Store) (dagId : String) (now : Nat) (dag : Dag)
    (hdag : get_dag s dagId = some dag)
    (hfresh : dagRunFind s.runs dagId ("manual__" ++ isoformat now) = []) :
    (trigger s dagId now).1 = TriggerResult.triggered dagId ∧
    (trigger s dagId now).2.runs =
      { dagId := dagId, runId := "manual__" ++ isoformat now, executionDate := now,
        state := RunState.running, externalTrigger := true, conf := [] } :: s.runs := by
  simp [trigger, hdag, hfresh]

/-- Witness for C8 at the concrete scenario. -/
theorem C8_trigger_creates_manual_run_witness :
    (trigger storeC8 "rpt" 42).1 = TriggerResult.triggered "rpt" ∧
    (trigger storeC8 "rpt" 42).2.runs =
      { dagId := "rpt", runId := "manual__" ++ isoformat 42, executionDate := 42,
        state := RunState.running, externalTrigger := true, conf := [] } :: storeC8.runs :=
  C8_trigger_creates_manual_run storeC8 "rpt" 42
    { dagId := "rpt", maxActiveRuns := 2, taskIds := [], upstreams := [] }
    (by decide) (by decide)

/-- C3: an unconfirmed (dry-run) clear mutates nothing and previews exactly
the selected task-instance set (or reports the empty selection), while a
confirmed clear returns the count of affected rows and resets exactly the
selected instances, leaving every unselected instance untouched. -/
theorem C3_clear_dry_run_previews_confirmed_mutates (s : Store) (dagId : String)
    (sd ed : Option Nat) (i : Nat) :
    (clear_dag_tis s dagId sd ed false).2 = s ∧
    (clear_dag_tis s dagId sd ed false).1 =
      (if clearSelect s dagId sd ed = [] then ClearResponse.emptyPreview
       else ClearResponse.confirmList (clearSelect s dagId sd ed)) ∧
    (clear_dag_tis s dagId sd ed true).1 =
      ClearResponse.cleared (clearSelect s dagId sd ed).length ∧
    ((clear_dag_tis s dagId sd ed true).2.tis)[i]? =
      (s.tis[i]?).map (fun t => if tiSelected dagId sd ed t then resetTi t else t) := by
  refine ⟨?_, ?_, ?_, ?_⟩
  · by_cases h : clearSelect s dagId sd ed = [] <;> simp [clear_dag_tis, h]
  · by_cases h : clearSelect s dagId sd ed = [] <;> simp [clear_dag_tis, h]
  · simp [clear_dag_tis]
  · simp [clear_dag_tis, clearApply]

/-- C9: with any configured default executor other than a CeleryExecutor —
including the case where the CeleryExecutor class cannot be imported — the
run handler reports the restriction, queues nothing, and leaves the store
unchanged, independently of the dependency context and of any task-instance
state (the restriction is decided before dependency evaluation). -/
theorem C9_run_refuses_non_celery_executor (s : Store) (dag : Dag) (execKind : ExecutorKind)
    (dagId taskId : String) (executionDate : Nat) (ctx : DepContext)
    (hdag : get_dag s dagId = some dag) (hexec : execKind ≠ ExecutorKind.celery) :
    run s execKind dagId taskId executionDate ctx = (RunResult.executorNotCelery, [], s) := by
  simp [run, hdag, hexec]

/-- C4: under a CeleryExecutor the run handler hands the task instance to the
executor exactly when the queueing dependency evaluation returns the empty
sequence; a non-empty sequence queues nothing and is returned to the caller
as (dependency_name, reason) data. -/
theorem C4_run_queues_iff_deps_met (s : Store) (dag : Dag) (dagId taskId : String)
    (executionDate : Nat) (ctx : DepContext)
    (hdag : get_dag s dagId = some dag) :
    ((run s ExecutorKind.celery dagId taskId executionDate ctx).2.1 ≠ [] ↔
      get_failed_dep_statuses s dag (get_ti s dagId taskId executionDate) ctx = []) ∧
    (get_failed_dep_statuses s dag (get_ti s dagId taskId executionDate) ctx = [] →
      run s ExecutorKind.celery dagId taskId executionDate ctx =
        (RunResult.queued, [(dagId, taskId, executionDate)], s)) ∧
    (get_failed_dep_statuses s dag (get_ti s dagId taskId executionDate) ctx ≠ [] →
      run s ExecutorKind.celery dagId taskId executionDate ctx =
        (RunResult.depsNotMet
          (get_failed_dep_statuses s dag (get_ti s dagId taskId executionDate) ctx), [], s)) := by
  by_cases h : get_failed_dep_statuses s dag (get_ti s dagId taskId executionDate) ctx = [] <;>
    simp [run, hdag, h]

/-- Witness for C4 at the concrete scenario. -/
theorem C4_run_queues_iff_deps_met_witness :
    ((run storeC4 ExecutorKind.celery "wf" "a" 3 ⟨false, false, false⟩).2.1 ≠ [] ↔
      get_failed_dep_statuses storeC4 dagC4 (get_ti storeC4 "wf" "a" 3) ⟨false, false, false⟩ = []) ∧
    (get_failed_dep_statuses storeC4 dagC4 (get_ti storeC4 "wf" "a" 3) ⟨false, false, false⟩ = [] →
      run storeC4 ExecutorKind.celery "wf" "a" 3 ⟨false, false, false⟩ =
        (RunResult.queued, [("wf", "a", 3)], storeC4)) ∧
    (get_failed_dep_statuses storeC4 dagC4 (get_ti storeC4 "wf" "a" 3) ⟨false, false, false⟩ ≠ [] →
      run storeC4 ExecutorKind.celery "wf" "a" 3 ⟨false, false, false⟩ =
        (RunResult.depsNotMet
          (get_failed_dep_statuses storeC4 dagC4 (get_ti storeC4 "wf" "a" 3)
            ⟨false, false, false⟩), [], storeC4)) :=
  C4_run_queues_iff_deps_met storeC4 dagC4 "wf" "a" 3 ⟨false, false, false⟩ (by decide)

/-- Witness for C9 at the concrete scenario, with the import-failed executor. -/
theorem C9_run_refuses_non_celery_executor_witness :
    run storeC4 ExecutorKind.importFailed "wf" "a" 3 ⟨false, false, false⟩ =
      (RunResult.executorNotCelery, [], storeC4) :=
  C9_run_refuses_non_celery_executor storeC4 dagC4 ExecutorKind.importFailed "wf" "a" 3
    ⟨false, false, false⟩ (by decide) (by decide)

theorem setRunStateRow_idem (d i : String) (ns : RunState) (q : DagRun) :
    setRunStateRow d i ns (setRunStateRow d i ns q) = setRunStateRow d i ns q := by
  by_cases h : (q.dagId == d && q.runId == i) = true
  · simp [setRunStateRow, h]
  · simp [setRunStateRow, h]

/-- C7: with no intervening change to the run's task instances, a second
`update_state` on the same run computes the same state as the first and
leaves the store exactly as the first call left it. -/
theorem C7_update_state_idempotent (s : Store) (r r2 : DagRun)
    (hd : r2.dagId = r.dagId) (he : r2.executionDate = r.executionDate)
    (hid : r2.runId = r.runId) :
    (update_state (update_state s r).2 r2).1 = (update_state s r).1 ∧
    (update_state (update_state s r).2 r2).2 = (update_state s r).2 := by
  have htis : ((update_state s r).2).tis = s.tis := rfl
  have hruns : ((update_state s r).2).runs
      = s.runs.map (setRunStateRow r.dagId r.runId (computeRunState (runTis s r))) := rfl
  have hns2 : computeRunState (runTis (update_state s r).2 r2)
      = computeRunState (runTis s r) := by
    unfold runTis
    rw [htis, hd, he]
  constructor
  · exact hns2
  · show ({ (update_state s r).2 with
        runs := ((update_state s r).2).runs.map
          (setRunStateRow r2.dagId r2.runId
            (computeRunState (runTis (update_state s r).2 r2))) } : Store)
      = (update_state s r).2
    rw [hns2, hd, hid, hruns, List.map_map]
    have hmap : s.runs.map
        (setRunStateRow r.dagId r.runId (computeRunState (runTis s r)) ∘
          setRunStateRow r.dagId r.runId (computeRunState (runTis s r)))
        = s.runs.map (setRunStateRow r.dagId r.runId (computeRunState (runTis s r))) :=
      List.map_congr_left (fun a _ => setRunStateRow_idem _ _ _ a)
    rw [hmap, ← hruns]

/-- Witness for C7 at the concrete scenario. -/
theorem C7_update_state_idempotent_witness :
    (update_state (update_state storeC7 runC7).2 runC7).1 = (update_state storeC7 runC7).1 ∧
    (update_state (update_state storeC7 runC7).2 runC7).2 = (update_state storeC7 runC7).2 :=
  C7_update_state_idempotent storeC7 runC7 runC7 rfl rfl rfl

/-- C6: clearing a selection that contains a terminal task instance resets
that instance to NONE with try_number 0 and moves an owning DAG run that was
in a terminal state back to RUNNING. -/
theorem C6_clear_resets_terminal_ti_and_reruns_dagrun (s : Store) (sel : List TiKey)
    (t : TaskInstance) (r : DagRun)
    (ht : t ∈ s.tis) (hterm : tiIsTerminal t.state = true)
    (hsel : (t.dagId, t.taskId, t.executionDate) ∈ sel)
    (hr : r ∈ s.runs) (hrd : r.dagId = t.dagId) (hre : r.executionDate = t.executionDate)
    (hrterm : runIsTerminal r.state = true) :
    resetTi t ∈ (clear_task_instances s sel).tis ∧
    (resetTi t).state = TiState.none_ ∧
    (resetTi t).tryNumber = 0 ∧
    { r with state := RunState.running } ∈ (clear_task_instances s sel).runs := by
  refine ⟨?_, rfl, rfl, ?_⟩
  · have h := List.mem_map_of_mem
      (fun t : TaskInstance =>
        if (t.dagId, t.taskId, t.executionDate) ∈ sel then resetTi t else t) ht
    simp only at h
    rw [if_pos hsel] at h
    exact h
  · have h := List.mem_map_of_mem
      (fun q : DagRun =>
        if runIsTerminal q.state = true ∧ ∃ k ∈ sel, k.1 = q.dagId ∧ k.2.2 = q.executionDate
        then { q with state := RunState.running } else q) hr
    simp only at h
    rw [if_pos
      (⟨hrterm, ⟨(t.dagId, t.taskId, t.executionDate), hsel, hrd.symm, hre.symm⟩⟩ :
        runIsTerminal r.state = true ∧ ∃ k ∈ sel, k.1 = r.dagId ∧ k.2.2 = r.executionDate)] at h
    exact h

/-- Witness for C6 at the concrete scenario. -/
theorem C6_clear_resets_terminal_ti_and_reruns_dagrun_witness :
    resetTi tiC6 ∈ (clear_task_instances storeC6 [("nightly", "x", 9)]).tis ∧
    (resetTi tiC6).state = TiState.none_ ∧
    (resetTi tiC6).tryNumber = 0 ∧
    { runC6 with state := RunState.running } ∈ (clear_task_instances storeC6 [("nightly", "x", 9)]).runs :=
  C6_clear_resets_terminal_ti_and_reruns_dagrun storeC6 [("nightly", "x", 9)] tiC6 runC6
    (by decide) (by decide) (by decide) (by decide) (by decide) (by decide) (by decide)

theorem pool_slot_filter_split (l : List TaskInstance) (p : String) :
    (l.filter (fun t => t.pool == p && t.state == TiState.running)).length
      + (l.filter (fun t => t.pool == p && t.state == TiState.queued)).length
      = (l.filter (fun t =>
          t.pool == p && (t.state == TiState.running || t.state == TiState.queued))).length := by
  induction l with
  | nil => rfl
  | cons h t ih =>
    by_cases hp : h.pool = p
    · by_cases hrun : h.state = TiState.running
      · simp [List.filter_cons, hp, hrun]
        omega
      · by_cases hq : h.state = TiState.queued
        · simp [List.filter_cons, hp, hrun, hq]
          omega
        · simp [List.filter_cons, hp, hrun, hq]
          omega
    · simp [List.filter_cons, hp]
      omega

/-- C5 fails on the code: with one RUNNING and one QUEUED instance in the
pool, the exposed used-slots figure is 1 (the RUNNING count its view link
filters on), not the RUNNING-or-QUEUED count 2 the claim states. -/
theorem C5_counterexample :
    used_slots storeC5 "batch" = 1 ∧
    poolOccupancy storeC5 "batch" = 2 ∧
    used_slots storeC5 "batch" ≠ poolOccupancy storeC5 "batch" := by
  decide

/-- C5 (amended): the exposed used-slots figure counts only the pool's
RUNNING instances; its QUEUED instances are exposed separately as the
queued-slots figure, and the two figures — each computed fresh by counting
current instance states — sum to the RUNNING-or-QUEUED occupancy that the
admission check uses. -/
theorem C5_used_plus_queued_is_occupancy (s : Store) (p : String) :
    used_slots s p + queued_slots s p = poolOccupancy s p := by
  unfold used_slots queued_slots poolOccupancy
  exact pool_slot_filter_split s.tis p

/-- C10: for a key classified sensitive, both the list rendering and the
edit-form prefill show exactly eight asterisks, so the rendering is the same
for any two stored values. -/
theorem C10_sensitive_variable_rendering_masked (hide : String → Bool) (key : String)
    (v1 v2 : Option String) (w1 w2 : String) (hkey : hide key = true) :
    hidden_field_formatter hide key v1 = some "********" ∧
    hidden_field_formatter hide key v1 = hidden_field_formatter hide key v2 ∧
    prefill_form_val hide key w1 = "********" ∧
    prefill_form_val hide key w1 = prefill_form_val hide key w2 := by
  simp [hidden_field_formatter, prefill_form_val, hkey, maskedValue]

/-- Witness for C10: two runs differing only in the secret value render the
same masked output. -/
theorem C10_sensitive_variable_rendering_masked_witness :
    hidden_field_formatter (fun k => k == "api_key") "api_key" (some "hunter2") =
      some "********" ∧
    hidden_field_formatter (fun k => k == "api_key") "api_key" (some "hunter2") =
      hidden_field_formatter (fun k => k == "api_key") "api_key" (some "opensesame") ∧
    prefill_form_val (fun k => k == "api_key") "api_key" "hunter2" = "********" ∧
    prefill_form_val (fun k => k == "api_key") "api_key" "hunter2" =
      prefill_form_val (fun k => k == "api_key") "api_key" "s3cret" :=
  C10_sensitive_variable_rendering_masked (fun k => k == "api_key") "api_key"
    (some "hunter2") (some "opensesame") "hunter2" "s3cret" (by decide)
